import Mathlib

/-!
# Verification development for `tracing/tracing.go`

A shallow embedding of the package `tracing` (file `tracing.go`): the writer
adapter `loggerWriter` and the bootstrap function `InitOpenTelemetry`.

Conventions of the embedding.

* A Go `[]byte` is a list of bytes, a Go `string` is an immutable byte
  sequence (`GoString`); the conversion `string(p)` keeps the bytes.
* A value of an interface type that is declared outside `tracing.go`
  (`dcontext.Logger`, `context.Context`, `error`, `sdktrace.SpanExporter`) is
  taken as a parameter: the logger is a record of behaviours over a state of
  its own, contexts, errors and exporters are type parameters.
* Functions of other packages whose outcome is not determined by their
  arguments (`version.Version`, `autoexport.NewSpanExporter`,
  `dcontext.GetLogger`, `stdouttrace.New`) are the fields of `Env`.  The SDK
  constructors that only build a value (`resource.NewWithAttributes`,
  `sdktrace.With...`, `sdktrace.NewBatchSpanProcessor`,
  `sdktrace.NewTracerProvider`, `propagation.NewCompositeTextMapPropagator`)
  build the record of their arguments.  The resource a provider ends up with
  is not the one it is given: the SDK merges the given one over the resource
  it reads from the process environment (`TracerProvider.resource`).
* The process-wide state is `World`: the two global slots of package `otel`
  and the history of the calls made to collaborators, oldest first.
-/

namespace Tracing

/-! ## Go values -/

/-- One byte. -/
abbrev Byte := Fin 256

/-- A Go `string`: an immutable sequence of bytes, not necessarily UTF-8. -/
structure GoString where
  bytes : List Byte
deriving DecidableEq, Repr

/-- The bytes of one character of a string literal (UTF-8, as the Go compiler
stores literals). -/
def GoString.charBytes (c : Char) : List Byte :=
  (String.utf8EncodeChar c).map fun b => ⟨b.toNat % 256, Nat.mod_lt _ (by decide)⟩

/-- A Go string literal. -/
def GoString.lit (s : String) : GoString :=
  ⟨s.data.flatMap GoString.charBytes⟩

/-- Go `len(s)` of a string. -/
def GoString.len (s : GoString) : Nat := s.bytes.length

/-- The Go conversion `string(p)` of a byte slice: the same bytes, copied. -/
def string (p : List Byte) : GoString := ⟨p⟩

/-! ## Constants of `tracing.go` (lines 17-27) -/

/-- Trace service name (line 19). -/
def serviceName : GoString := GoString.lit "distribution"

/-- Default sample ratio (line 22): the untyped constant `1`. -/
def defaultSamplingRatio : ℚ := 1

/-! ## `dcontext.Logger` and `loggerWriter` (lines 29-40) -/

/-- The method families of the interface `dcontext.Logger` (declared in
`internal/dcontext`, outside `tracing.go`). -/
inductive Level where
  | Print | Fatal | Panic | Debug | Error | Info | Warn
deriving DecidableEq, Repr

/-- A value of interface type `dcontext.Logger`: what each method family does
with one message to the state `σ` the logger writes to.  The methods return
nothing. -/
structure Logger (σ : Type) where
  log : Level → GoString → σ → σ

/-- The method `Debug` of a logger, called with one string argument. -/
def Logger.Debug {σ : Type} (l : Logger σ) (msg : GoString) (s : σ) : σ :=
  l.log Level.Debug msg s

/-- Lines 32-34: `type loggerWriter struct { logger dcontext.Logger }`. -/
structure loggerWriter (σ : Type) where
  logger : Logger σ

/-- Lines 37-40: `func (lw *loggerWriter) Write(p []byte) (n int, err error)`.
The result is `((n, err), s')` with `s'` the logger's state after the call;
`Err` is the type of Go's `error` values, `none` is nil. -/
def loggerWriter.Write (Err : Type) {σ : Type} (lw : loggerWriter σ) (p : List Byte) (s : σ) :
    (Nat × Option Err) × σ :=
  let s := lw.logger.Debug (string p) s
  ((p.length, none), s)

/-- One entry of a recorded log. -/
structure Entry where
  level : Level
  msg : GoString
deriving DecidableEq, Repr

/-- The logger that records every call, of every level, at the end of a
list of entries. -/
def recordingLogger : Logger (List Entry) where
  log lvl msg entries := entries ++ [⟨lvl, msg⟩]

/-- A logger that forgets everything it held and keeps nothing. -/
def droppingLogger : Logger (List Entry) where
  log _ _ _ := []

/-! ## Values built by the SDK constructors

Each constructor of the telemetry SDK builds the record of its arguments. -/

/-- An `attribute.KeyValue` with a string value. -/
structure KeyValue where
  key : GoString
  value : GoString
deriving DecidableEq, Repr

/-- The method `attribute.Key.String`: `k.String(v)`. -/
def Key.String (k v : GoString) : KeyValue := ⟨k, v⟩

/-- Package `semconv/v1.4.0` (line 14): `SchemaURL`. -/
def semconv.SchemaURL : GoString := GoString.lit "https://opentelemetry.io/schemas/1.4.0"

/-- Package `semconv/v1.4.0`: `ServiceNameKey`. -/
def semconv.ServiceNameKey : GoString := GoString.lit "service.name"

/-- Package `semconv/v1.4.0`: `ServiceVersionKey`. -/
def semconv.ServiceVersionKey : GoString := GoString.lit "service.version"

/-- A `*resource.Resource`: a schema URL and the attributes given. -/
structure Resource where
  schemaURL : GoString
  attrs : List KeyValue
deriving DecidableEq, Repr

/-- The constructor `resource.NewWithAttributes(schemaURL, attrs...)`. -/
def resource.NewWithAttributes (schemaURL : GoString) (attrs : List KeyValue) : Resource :=
  ⟨schemaURL, attrs⟩

/-- A `sdktrace.Sampler`; the only one `tracing.go` builds is
`sdktrace.TraceIDRatioBased(fraction)`. -/
inductive Sampler where
  | TraceIDRatioBased (fraction : ℚ)
deriving DecidableEq

/-- The decisions of a sampler. -/
inductive SamplingDecision where
  | Drop | RecordOnly | RecordAndSample
deriving DecidableEq, Repr

/-- Modelled from the spec: the sampling decision of the SDK's ratio sampler
(package `sdktrace`, not part of `tracing.go`).  Spec 4.4 step 6: a ratio-based
sampler at ratio 1 is "always sample", every span is recorded; glossary: the
sampler decides what fraction of spans are recorded.  Below ratio 1 a trace is
kept when the 63-bit number read from the low eight bytes of its ID lies under
`fraction * 2^63`. -/
def Sampler.ShouldSample : Sampler → Nat → SamplingDecision
  | .TraceIDRatioBased fraction, traceID =>
    if 1 ≤ fraction then SamplingDecision.RecordAndSample
    else if ((traceID % 2 ^ 64 / 2 : Nat) : ℤ) < Rat.floor (max fraction 0 * 2 ^ 63) then
      SamplingDecision.RecordAndSample
    else SamplingDecision.Drop

/-- Modelled from the spec: the struct `compositeExporter` (declared in another
file of package `tracing`, not in `tracing.go`).  Spec 3: it "owns an ordered
sequence of span exporters" and has no other state. -/
structure compositeExporter (E : Type) where
  exporters : List E

/-- Modelled from the spec: `newCompositeExporter(exporters...)` (declared in
another file of package `tracing`, not in `tracing.go`) holds the exporters
"in the order they were supplied" (spec 4.3). -/
def newCompositeExporter {E : Type} (exporters : List E) : compositeExporter E :=
  ⟨exporters⟩

/-- A batch span processor: the exporter it wraps. -/
structure BatchSpanProcessor (E : Type) where
  exporter : compositeExporter E

/-- The constructor `sdktrace.NewBatchSpanProcessor(exporter)`. -/
def sdktrace.NewBatchSpanProcessor {E : Type} (exporter : compositeExporter E) :
    BatchSpanProcessor E :=
  ⟨exporter⟩

/-- The options `tracing.go` gives to `sdktrace.NewTracerProvider`. -/
inductive TracerProviderOption (E : Type) where
  | WithSampler (s : Sampler)
  | WithResource (r : Resource)
  | WithSpanProcessor (sp : BatchSpanProcessor E)

/-- A `*sdktrace.TracerProvider`: the options it was built with, in order. -/
structure TracerProvider (E : Type) where
  opts : List (TracerProviderOption E)

/-- The constructor `sdktrace.NewTracerProvider(opts...)`. -/
def sdktrace.NewTracerProvider {E : Type} (opts : List (TracerProviderOption E)) :
    TracerProvider E :=
  ⟨opts⟩

/-- The samplers a provider was given, in option order. -/
def TracerProvider.samplers {E : Type} (tp : TracerProvider E) : List Sampler :=
  tp.opts.filterMap fun o => match o with
    | .WithSampler s => some s
    | _ => none

/-- The arguments of the `WithResource` options a provider was built with, as
given and in option order.  This is what `tracing.go` hands over, not the
resource the provider ends up with: see `TracerProvider.resource`. -/
def TracerProvider.resourceOptions {E : Type} (tp : TracerProvider E) : List Resource :=
  tp.opts.filterMap fun o => match o with
    | .WithResource r => some r
    | _ => none

/-- Whether a resource carries an attribute under the key `k`. -/
def Resource.hasKey (r : Resource) (k : GoString) : Bool :=
  r.attrs.any fun kv => decide (kv.key = k)

/-- The SDK's `resource.Merge(a, b)` (package `resource`, not part of
`tracing.go`, and the spec is silent on it): the attributes of `a` whose key
`b` does not carry, and all the attributes of `b`, so that `b` wins on a shared
key.  An attribute set is unordered; the order of the list carries no meaning.
The schema URL is the non-empty one of the two, theirs when they agree, and
empty when they differ. -/
def resource.Merge (a b : Resource) : Resource where
  schemaURL :=
    if a.schemaURL = ⟨[]⟩ then b.schemaURL
    else if b.schemaURL = ⟨[]⟩ then a.schemaURL
    else if a.schemaURL = b.schemaURL then a.schemaURL
    else ⟨[]⟩
  attrs := (a.attrs.filter fun kv => !b.hasKey kv.key) ++ b.attrs

/-- The resource of a provider, given `environment`, the value of the SDK's
`resource.Environment()` (what the process environment declares, for one
through `OTEL_RESOURCE_ATTRIBUTES`).  The SDK applies the options in order,
and `sdktrace.WithResource(r)` sets the provider's resource to
`resource.Merge(resource.Environment(), r)`; this is SDK code, not part of
`tracing.go`.  `none` stands for a provider built without that option. -/
def TracerProvider.resource {E : Type} (environment : Resource) (tp : TracerProvider E) :
    Option Resource :=
  tp.opts.foldl (fun acc o => match o with
    | .WithResource r => some (resource.Merge environment r)
    | _ => acc) none

/-- The span processors a provider was given, in option order. -/
def TracerProvider.spanProcessors {E : Type} (tp : TracerProvider E) :
    List (BatchSpanProcessor E) :=
  tp.opts.filterMap fun o => match o with
    | .WithSpanProcessor sp => some sp
    | _ => none

/-- The two propagation formats of package `propagation` that `tracing.go`
names: `propagation.TraceContext{}` and `propagation.Baggage{}`. -/
inductive TextMapFormat where
  | TraceContext | Baggage
deriving DecidableEq, Repr

/-- A composite text-map propagator: its member formats, in order. -/
structure TextMapPropagator where
  propagators : List TextMapFormat
deriving DecidableEq, Repr

/-- The constructor `propagation.NewCompositeTextMapPropagator(p...)`. -/
def propagation.NewCompositeTextMapPropagator (p : List TextMapFormat) : TextMapPropagator :=
  ⟨p⟩

/-- The option of package `stdouttrace` that `tracing.go` uses:
`stdouttrace.WithWriter(w)`, with the `*loggerWriter` as the `io.Writer`. -/
inductive stdouttrace.Option (σ : Type) where
  | WithWriter (w : loggerWriter σ)

/-! ## Collaborators and process-wide state -/

/-- The collaborators of `InitOpenTelemetry` whose outcome is not determined by
their arguments.  `Ctx` is `context.Context`, `Err` is `error`, `σ` the state
loggers write to, `E` is `sdktrace.SpanExporter`. -/
structure Env (Ctx Err σ E : Type) where
  /-- The function `version.Version()`. -/
  Version : GoString
  /-- The function `autoexport.NewSpanExporter(ctx)`. -/
  NewSpanExporter : Ctx → Except Err E
  /-- The function `dcontext.GetLogger(ctx)`. -/
  GetLogger : Ctx → Logger σ
  /-- The function `stdouttrace.New(opts...)`. -/
  stdouttraceNew : List (stdouttrace.Option σ) → Except Err E
  /-- The function `resource.Environment()`, which the SDK calls when it applies
  `sdktrace.WithResource`; `tracing.go` itself does not call it. -/
  Environment : Resource

/-- One call to a collaborator, with its arguments. -/
inductive Call (Ctx σ E : Type) where
  | Version
  | NewSpanExporter (ctx : Ctx)
  | GetLogger (ctx : Ctx)
  | stdouttraceNew (opts : List (stdouttrace.Option σ))
  | SetTracerProvider (tp : TracerProvider E)
  | SetTextMapPropagator (p : TextMapPropagator)

/-- Whether a call is a construction of an exporter through `stdouttrace.New`. -/
def Call.isStdouttraceNew {Ctx σ E : Type} : Call Ctx σ E → Bool
  | .stdouttraceNew _ => true
  | _ => false

/-- Whether a call writes the global tracer-provider slot. -/
def Call.isSetTracerProvider {Ctx σ E : Type} : Call Ctx σ E → Bool
  | .SetTracerProvider _ => true
  | _ => false

/-- Whether a call writes the global propagator slot. -/
def Call.isSetTextMapPropagator {Ctx σ E : Type} : Call Ctx σ E → Bool
  | .SetTextMapPropagator _ => true
  | _ => false

/-- The contexts a call receives. -/
def Call.contexts {Ctx σ E : Type} : Call Ctx σ E → List Ctx
  | .NewSpanExporter ctx => [ctx]
  | .GetLogger ctx => [ctx]
  | _ => []

/-- The two process-wide slots of package `otel`; `none` is a nil slot. -/
structure Globals (E : Type) where
  tracerProvider : Option (TracerProvider E)
  textMapPropagator : Option TextMapPropagator

/-- The process-wide state: the global slots and the history of the calls made
to collaborators, oldest first. -/
structure World (Ctx σ E : Type) where
  globals : Globals E
  calls : List (Call Ctx σ E)

/-- The call `version.Version()`. -/
def version.Version {Ctx Err σ E : Type} (env : Env Ctx Err σ E) (w : World Ctx σ E) :
    GoString × World Ctx σ E :=
  (env.Version, { w with calls := w.calls ++ [Call.Version] })

/-- The call `autoexport.NewSpanExporter(ctx)`. -/
def autoexport.NewSpanExporter {Ctx Err σ E : Type} (env : Env Ctx Err σ E) (ctx : Ctx)
    (w : World Ctx σ E) : Except Err E × World Ctx σ E :=
  (env.NewSpanExporter ctx, { w with calls := w.calls ++ [Call.NewSpanExporter ctx] })

/-- The call `dcontext.GetLogger(ctx)`. -/
def dcontext.GetLogger {Ctx Err σ E : Type} (env : Env Ctx Err σ E) (ctx : Ctx)
    (w : World Ctx σ E) : Logger σ × World Ctx σ E :=
  (env.GetLogger ctx, { w with calls := w.calls ++ [Call.GetLogger ctx] })

/-- The call `stdouttrace.New(opts...)`. -/
def stdouttrace.New {Ctx Err σ E : Type} (env : Env Ctx Err σ E)
    (opts : List (stdouttrace.Option σ)) (w : World Ctx σ E) :
    Except Err E × World Ctx σ E :=
  (env.stdouttraceNew opts, { w with calls := w.calls ++ [Call.stdouttraceNew opts] })

/-- The call `otel.SetTracerProvider(tp)`: the slot takes the new value. -/
def otel.SetTracerProvider {Ctx σ E : Type} (tp : TracerProvider E) (w : World Ctx σ E) :
    World Ctx σ E :=
  { globals := { w.globals with tracerProvider := some tp }
    calls := w.calls ++ [Call.SetTracerProvider tp] }

/-- The call `otel.SetTextMapPropagator(p)`: the slot takes the new value. -/
def otel.SetTextMapPropagator {Ctx σ E : Type} (p : TextMapPropagator) (w : World Ctx σ E) :
    World Ctx σ E :=
  { globals := { w.globals with textMapPropagator := some p }
    calls := w.calls ++ [Call.SetTextMapPropagator p] }

/-! ## `InitOpenTelemetry` (lines 44-79) -/

/-- Lines 44-79: `func InitOpenTelemetry(ctx context.Context) error`.  The
result is the returned error (`none` is nil) and the world after the call. -/
def InitOpenTelemetry {Ctx Err σ E : Type} (env : Env Ctx Err σ E) (ctx : Ctx)
    (w : World Ctx σ E) : Option Err × World Ctx σ E :=
  let (ver, w) := version.Version env w
  let res := resource.NewWithAttributes semconv.SchemaURL
    [Key.String semconv.ServiceNameKey serviceName,
     Key.String semconv.ServiceVersionKey ver]
  match autoexport.NewSpanExporter env ctx w with
  | (.error err, w) => (some err, w)
  | (.ok autoExp, w) =>
    let (lg, w) := dcontext.GetLogger env ctx w
    let lw : loggerWriter σ := { logger := lg }
    match stdouttrace.New env [stdouttrace.Option.WithWriter lw] w with
    | (.error err, w) => (some err, w)
    | (.ok loggerExp, w) =>
      let compositeExp := newCompositeExporter [autoExp, loggerExp]
      let sp := sdktrace.NewBatchSpanProcessor compositeExp
      let provider := sdktrace.NewTracerProvider
        [TracerProviderOption.WithSampler (Sampler.TraceIDRatioBased defaultSamplingRatio),
         TracerProviderOption.WithResource res,
         TracerProviderOption.WithSpanProcessor sp]
      let w := otel.SetTracerProvider provider w
      let pr := propagation.NewCompositeTextMapPropagator
        [TextMapFormat.TraceContext, TextMapFormat.Baggage]
      let w := otel.SetTextMapPropagator pr w
      (none, w)

/-- The provider `InitOpenTelemetry` builds at lines 68-72 from the version
string and the two exporters. -/
def builtProvider {E : Type} (ver : GoString) (autoExp loggerExp : E) : TracerProvider E :=
  sdktrace.NewTracerProvider
    [TracerProviderOption.WithSampler (Sampler.TraceIDRatioBased defaultSamplingRatio),
     TracerProviderOption.WithResource
       (resource.NewWithAttributes semconv.SchemaURL
         [Key.String semconv.ServiceNameKey serviceName,
          Key.String semconv.ServiceVersionKey ver]),
     TracerProviderOption.WithSpanProcessor
       (sdktrace.NewBatchSpanProcessor (newCompositeExporter [autoExp, loggerExp]))]

/-! ## The composite exporter's export -/

/-- Modelled from the spec: the loop of the composite's export (the method is
in another file of package `tracing`, not in `tracing.go`).  Spec 4.3: the batch goes
"to every held exporter, in the order they were supplied", and after a failure
the composite continues "attempting the remaining exporters".  `call e` is the
export method of the held exporter `e`; the result is the failures met, in
order, and the state after the last exporter. -/
def compositeExporter.exportEach {E B ρ Err : Type} (call : E → B → ρ → Option Err × ρ)
    (batch : B) : List E → ρ → List Err × ρ
  | [], s => ([], s)
  | e :: es, s =>
    match call e batch s with
    | (none, s1) => compositeExporter.exportEach call batch es s1
    | (some err, s1) =>
      ((compositeExporter.exportEach call batch es s1).1.cons err,
       (compositeExporter.exportEach call batch es s1).2)

/-- Modelled from the spec: the composite's `export(batch)` (a method declared
in another file of package `tracing`, not in `tracing.go`).
Spec 4.3: "A combined error is returned only if at least one sub-export failed;
success if all succeeded."  The spec leaves open how the failures are merged
("first/combined error"): `combine first others` is that merge. -/
def compositeExporter.ExportSpans {E B ρ Err : Type} (call : E → B → ρ → Option Err × ρ)
    (combine : Err → List Err → Err) (ce : compositeExporter E) (batch : B) (s : ρ) :
    Option Err × ρ :=
  match compositeExporter.exportEach call batch ce.exporters s with
  | ([], s1) => (none, s1)
  | (first :: others, s1) => (some (combine first others), s1)

/-- One observed sub-export: the exporter invoked, the batch it was handed and
what it answered. -/
structure ExportRecord (E B Err : Type) where
  exporter : E
  batch : B
  result : Option Err

/-- The export method `call`, observed: each invocation is recorded at the end
of a list, and otherwise behaves as `call` does. -/
def recorded {E B ρ Err : Type} (call : E → B → ρ → Option Err × ρ) :
    E → B → ρ × List (ExportRecord E B Err) → Option Err × (ρ × List (ExportRecord E B Err)) :=
  fun e b sl => ((call e b sl.1).1, ((call e b sl.1).2, sl.2 ++ [⟨e, b, (call e b sl.1).1⟩]))

/-! ## Sample collaborators -/

/-- Two contexts: a live one and one that has been cancelled. -/
inductive SampleCtx where
  | background | cancelled
deriving DecidableEq, Repr

/-- Collaborators under which both exporter constructors succeed on a live
context; the auto-configured exporter refuses a cancelled context. -/
def sampleEnv : Env SampleCtx String (List Entry) Nat where
  Version := GoString.lit "v3.0.0"
  NewSpanExporter
    | SampleCtx.background => Except.ok 1
    | SampleCtx.cancelled => Except.error "context canceled"
  GetLogger _ := recordingLogger
  stdouttraceNew _ := Except.ok 2
  Environment := { schemaURL := ⟨[]⟩, attrs := [] }

/-- Collaborators under which both exporter constructors succeed and the
process environment declares one resource attribute,
`deployment.environment=prod`. -/
def sampleEnvWithAttribute : Env SampleCtx String (List Entry) Nat where
  Version := GoString.lit "v3.0.0"
  NewSpanExporter _ := Except.ok 1
  GetLogger _ := recordingLogger
  stdouttraceNew _ := Except.ok 2
  Environment :=
    { schemaURL := ⟨[]⟩
      attrs := [⟨GoString.lit "deployment.environment", GoString.lit "prod"⟩] }

/-- Collaborators under which the log exporter cannot be constructed. -/
def sampleEnvLogFails : Env SampleCtx String (List Entry) Nat where
  Version := GoString.lit "v3.0.0"
  NewSpanExporter _ := Except.ok 1
  GetLogger _ := recordingLogger
  stdouttraceNew _ := Except.error "no encoder"
  Environment := { schemaURL := ⟨[]⟩, attrs := [] }

/-- A world in which nothing has been installed or called. -/
def emptyWorld : World SampleCtx (List Entry) Nat where
  globals := { tracerProvider := none, textMapPropagator := none }
  calls := []

/-- A world in which sentinel values sit in both global slots. -/
def sentinelWorld : World SampleCtx (List Entry) Nat where
  globals :=
    { tracerProvider := some (sdktrace.NewTracerProvider [])
      textMapPropagator := some (propagation.NewCompositeTextMapPropagator []) }
  calls := [Call.Version]

/-! ## What `InitOpenTelemetry` computes on each of its three paths -/

theorem InitOpenTelemetry_auto_error {Ctx Err σ E : Type} (env : Env Ctx Err σ E) (ctx : Ctx)
    (w : World Ctx σ E) (e : Err) (h : env.NewSpanExporter ctx = Except.error e) :
    InitOpenTelemetry env ctx w =
      (some e, { globals := w.globals
                 calls := w.calls ++ [Call.Version, Call.NewSpanExporter ctx] }) := by
  simp [InitOpenTelemetry, version.Version, autoexport.NewSpanExporter, h]

theorem InitOpenTelemetry_log_error {Ctx Err σ E : Type} (env : Env Ctx Err σ E) (ctx : Ctx)
    (w : World Ctx σ E) (a : E) (e : Err) (ha : env.NewSpanExporter ctx = Except.ok a)
    (hl : env.stdouttraceNew [stdouttrace.Option.WithWriter ⟨env.GetLogger ctx⟩]
      = Except.error e) :
    InitOpenTelemetry env ctx w =
      (some e, { globals := w.globals
                 calls := w.calls ++ [Call.Version, Call.NewSpanExporter ctx,
                   Call.GetLogger ctx,
                   Call.stdouttraceNew [stdouttrace.Option.WithWriter ⟨env.GetLogger ctx⟩]] }) := by
  simp [InitOpenTelemetry, version.Version, autoexport.NewSpanExporter, dcontext.GetLogger,
    stdouttrace.New, ha, hl]

theorem InitOpenTelemetry_ok {Ctx Err σ E : Type} (env : Env Ctx Err σ E) (ctx : Ctx)
    (w : World Ctx σ E) (a l : E) (ha : env.NewSpanExporter ctx = Except.ok a)
    (hl : env.stdouttraceNew [stdouttrace.Option.WithWriter ⟨env.GetLogger ctx⟩]
      = Except.ok l) :
    InitOpenTelemetry env ctx w =
      (none, { globals :=
                 { tracerProvider := some (builtProvider env.Version a l)
                   textMapPropagator := some (propagation.NewCompositeTextMapPropagator
                     [TextMapFormat.TraceContext, TextMapFormat.Baggage]) }
               calls := w.calls ++ [Call.Version, Call.NewSpanExporter ctx,
                 Call.GetLogger ctx,
                 Call.stdouttraceNew [stdouttrace.Option.WithWriter ⟨env.GetLogger ctx⟩],
                 Call.SetTracerProvider (builtProvider env.Version a l),
                 Call.SetTextMapPropagator (propagation.NewCompositeTextMapPropagator
                   [TextMapFormat.TraceContext, TextMapFormat.Baggage])] }) := by
  simp [InitOpenTelemetry, version.Version, autoexport.NewSpanExporter, dcontext.GetLogger,
    stdouttrace.New, otel.SetTracerProvider, otel.SetTextMapPropagator, builtProvider, ha, hl]

/-- If `InitOpenTelemetry` returns nil, both constructors succeeded. -/
theorem InitOpenTelemetry_nil_inv {Ctx Err σ E : Type} (env : Env Ctx Err σ E) (ctx : Ctx)
    (w : World Ctx σ E) (h : (InitOpenTelemetry env ctx w).1 = none) :
    ∃ a l, env.NewSpanExporter ctx = Except.ok a ∧
      env.stdouttraceNew [stdouttrace.Option.WithWriter ⟨env.GetLogger ctx⟩] = Except.ok l := by
  cases ha : env.NewSpanExporter ctx with
  | error e => rw [InitOpenTelemetry_auto_error env ctx w e ha] at h; simp at h
  | ok a =>
    cases hl : env.stdouttraceNew [stdouttrace.Option.WithWriter ⟨env.GetLogger ctx⟩] with
    | error e => rw [InitOpenTelemetry_log_error env ctx w a e ha hl] at h; simp at h
    | ok l => exact ⟨a, l, rfl, rfl⟩

/-- If `InitOpenTelemetry` returns an error, it wrote no global slot. -/
theorem InitOpenTelemetry_error_globals {Ctx Err σ E : Type} (env : Env Ctx Err σ E) (ctx : Ctx)
    (w : World Ctx σ E) (e : Err) (h : (InitOpenTelemetry env ctx w).1 = some e) :
    (InitOpenTelemetry env ctx w).2.globals = w.globals := by
  cases ha : env.NewSpanExporter ctx with
  | error e1 => rw [InitOpenTelemetry_auto_error env ctx w e1 ha]
  | ok a =>
    cases hl : env.stdouttraceNew [stdouttrace.Option.WithWriter ⟨env.GetLogger ctx⟩] with
    | error e1 => rw [InitOpenTelemetry_log_error env ctx w a e1 ha hl]
    | ok l => rw [InitOpenTelemetry_ok env ctx w a l ha hl] at h; simp at h

/-! ## The composite exporter: what the loop does -/

/-- The loop over observed exporters: it appends one record per held exporter,
in list order and with the batch it was given, meets a failure exactly when a
record holds one, and otherwise runs as the unobserved loop does. -/
theorem exportEach_recorded {E B ρ Err : Type} (call : E → B → ρ → Option Err × ρ) (batch : B)
    (es : List E) :
    ∀ (s : ρ) (log : List (ExportRecord E B Err)),
      ∃ recs,
        (compositeExporter.exportEach (recorded call) batch es (s, log)).2.2 = log ++ recs ∧
        recs.map (fun r => (r.exporter, r.batch)) = es.map (fun e => (e, batch)) ∧
        ((compositeExporter.exportEach (recorded call) batch es (s, log)).1 ≠ [] ↔
          ∃ r ∈ recs, r.result.isSome = true) ∧
        (compositeExporter.exportEach (recorded call) batch es (s, log)).1 =
          (compositeExporter.exportEach call batch es s).1 ∧
        (compositeExporter.exportEach (recorded call) batch es (s, log)).2.1 =
          (compositeExporter.exportEach call batch es s).2 := by
  induction es with
  | nil => intro s log; exact ⟨[], by simp [compositeExporter.exportEach]⟩
  | cons e es ih =>
    intro s log
    obtain ⟨recs, h1, h2, h3, h4, h5⟩ :=
      ih (call e batch s).2 (log ++ [⟨e, batch, (call e batch s).1⟩])
    refine ⟨⟨e, batch, (call e batch s).1⟩ :: recs, ?_⟩
    cases hc : (call e batch s).1 with
    | none =>
      have hr : recorded call e batch (s, log) =
          (none, ((call e batch s).2, log ++ [⟨e, batch, none⟩])) := by
        simp [recorded, hc]
      have hu : call e batch s = (none, (call e batch s).2) := by
        rw [← hc]
      rw [hc] at h1 h3 h4 h5
      simp only [compositeExporter.exportEach, hr]
      rw [hu]
      simp only [compositeExporter.exportEach]
      refine ⟨by simpa using h1, by simpa using h2, ?_, h4, h5⟩
      simpa using h3
    | some err =>
      have hr : recorded call e batch (s, log) =
          (some err, ((call e batch s).2, log ++ [⟨e, batch, some err⟩])) := by
        simp [recorded, hc]
      have hu : call e batch s = (some err, (call e batch s).2) := by
        rw [← hc]
      rw [hc] at h1 h3 h4 h5
      simp only [compositeExporter.exportEach, hr]
      rw [hu]
      simp only [compositeExporter.exportEach]
      refine ⟨by simpa using h1, by simpa using h2, ?_, by simp [h4], h5⟩
      simp

/-- The state after the composite's export is the state after the loop. -/
theorem ExportSpans_state {E B ρ Err : Type} (call : E → B → ρ → Option Err × ρ)
    (combine : Err → List Err → Err) (ce : compositeExporter E) (batch : B) (s : ρ) :
    (ce.ExportSpans call combine batch s).2 =
      (compositeExporter.exportEach call batch ce.exporters s).2 := by
  unfold compositeExporter.ExportSpans
  rcases compositeExporter.exportEach call batch ce.exporters s with ⟨_ | ⟨f, o⟩, s1⟩ <;> rfl

/-- The error of the composite's export is the merge of the loop's failures. -/
theorem ExportSpans_error {E B ρ Err : Type} (call : E → B → ρ → Option Err × ρ)
    (combine : Err → List Err → Err) (ce : compositeExporter E) (batch : B) (s : ρ) :
    (ce.ExportSpans call combine batch s).1 =
      match (compositeExporter.exportEach call batch ce.exporters s).1 with
      | [] => none
      | first :: others => some (combine first others) := by
  unfold compositeExporter.ExportSpans
  rcases compositeExporter.exportEach call batch ce.exporters s with ⟨_ | ⟨f, o⟩, s1⟩ <;> rfl

/-! ## The claims -/

/-- C1: for every byte sequence `p` (the empty one too), every logger and
every state of it, `loggerWriter.Write(p)` returns `n = len(p)` and a nil
error; two loggers of any kind, in any state, give the same result. -/
theorem C1_Write_returns_len_nil {σ Err : Type} (lw : loggerWriter σ) (p : List Byte) (s : σ) :
    (lw.Write Err p s).1 = (p.length, none) ∧
    ∀ (τ : Type) (lw2 : loggerWriter τ) (t : τ),
      (lw2.Write Err p t).1 = (lw.Write Err p s).1 :=
  ⟨rfl, fun _ _ _ => rfl⟩

/-- C2: for every byte sequence `p` and every prior log, one call
`loggerWriter.Write(p)` on a logger that records all its calls leaves the prior
entries in place and appends exactly one entry, of level Debug, whose message
has exactly the bytes of `p`; for every logger, the state after the call is the
one its Debug method gives for that message, no other method being called. -/
theorem C2_Write_logs_one_debug_entry {Err : Type} (p : List Byte) (entries : List Entry) :
    ((⟨recordingLogger⟩ : loggerWriter (List Entry)).Write Err p entries).2
        = entries ++ [⟨Level.Debug, string p⟩] ∧
    (string p).bytes = p ∧
    ∀ (σ : Type) (lw : loggerWriter σ) (s : σ),
      (lw.Write Err p s).2 = lw.logger.log Level.Debug (string p) s :=
  ⟨rfl, rfl, fun _ _ _ => rfl⟩

/-- C3: for every prior state of the two global slots, whenever
`InitOpenTelemetry` returns a non-nil error, both slots are what they were
before the call, and no call that writes a slot was made. -/
theorem C3_error_leaves_globals {Ctx Err σ E : Type} (env : Env Ctx Err σ E) (ctx : Ctx)
    (w : World Ctx σ E) (e : Err) (h : (InitOpenTelemetry env ctx w).1 = some e) :
    (InitOpenTelemetry env ctx w).2.globals.tracerProvider = w.globals.tracerProvider ∧
    (InitOpenTelemetry env ctx w).2.globals.textMapPropagator = w.globals.textMapPropagator ∧
    (∀ c ∈ (InitOpenTelemetry env ctx w).2.calls.drop w.calls.length,
      c.isSetTracerProvider = false ∧ c.isSetTextMapPropagator = false) := by
  refine ⟨by rw [InitOpenTelemetry_error_globals env ctx w e h],
    by rw [InitOpenTelemetry_error_globals env ctx w e h], ?_⟩
  cases ha : env.NewSpanExporter ctx with
  | error e1 =>
    rw [InitOpenTelemetry_auto_error env ctx w e1 ha]
    simp [Call.isSetTracerProvider, Call.isSetTextMapPropagator]
  | ok a =>
    cases hl : env.stdouttraceNew [stdouttrace.Option.WithWriter ⟨env.GetLogger ctx⟩] with
    | error e1 =>
      rw [InitOpenTelemetry_log_error env ctx w a e1 ha hl]
      simp [Call.isSetTracerProvider, Call.isSetTextMapPropagator]
    | ok l => rw [InitOpenTelemetry_ok env ctx w a l ha hl] at h; simp at h

/-- Witness of C3: the log exporter cannot be constructed, sentinels sit in
both slots. -/
theorem C3_error_leaves_globals_witness :
    (InitOpenTelemetry sampleEnvLogFails SampleCtx.background sentinelWorld).1
        = some "no encoder" ∧
    (InitOpenTelemetry sampleEnvLogFails SampleCtx.background sentinelWorld).2.globals.tracerProvider
        = sentinelWorld.globals.tracerProvider ∧
    (InitOpenTelemetry sampleEnvLogFails SampleCtx.background
        sentinelWorld).2.globals.textMapPropagator
        = sentinelWorld.globals.textMapPropagator ∧
    (∀ c ∈ (InitOpenTelemetry sampleEnvLogFails SampleCtx.background sentinelWorld).2.calls.drop
        sentinelWorld.calls.length,
      c.isSetTracerProvider = false ∧ c.isSetTextMapPropagator = false) :=
  ⟨rfl, C3_error_leaves_globals sampleEnvLogFails SampleCtx.background sentinelWorld
    "no encoder" rfl⟩

/-- C4: `InitOpenTelemetry` returns nil if and only if both exporter
constructors succeed; if the auto-exporter's constructor fails it returns that
very error and `stdouttrace.New` is never called; if the auto-exporter is built
and the log exporter's constructor fails it returns that very error. -/
theorem C4_returned_error {Ctx Err σ E : Type} (env : Env Ctx Err σ E) (ctx : Ctx)
    (w : World Ctx σ E) :
    ((InitOpenTelemetry env ctx w).1 = none ↔
      ∃ a l, env.NewSpanExporter ctx = Except.ok a ∧
        env.stdouttraceNew [stdouttrace.Option.WithWriter ⟨env.GetLogger ctx⟩] = Except.ok l) ∧
    (∀ e, env.NewSpanExporter ctx = Except.error e →
      (InitOpenTelemetry env ctx w).1 = some e ∧
      ∀ c ∈ (InitOpenTelemetry env ctx w).2.calls.drop w.calls.length,
        c.isStdouttraceNew = false) ∧
    (∀ a e, env.NewSpanExporter ctx = Except.ok a →
      env.stdouttraceNew [stdouttrace.Option.WithWriter ⟨env.GetLogger ctx⟩] = Except.error e →
      (InitOpenTelemetry env ctx w).1 = some e) := by
  refine ⟨⟨InitOpenTelemetry_nil_inv env ctx w, ?_⟩, ?_, ?_⟩
  · rintro ⟨a, l, ha, hl⟩
    rw [InitOpenTelemetry_ok env ctx w a l ha hl]
  · intro e ha
    rw [InitOpenTelemetry_auto_error env ctx w e ha]
    simp [Call.isStdouttraceNew]
  · intro a e ha hl
    rw [InitOpenTelemetry_log_error env ctx w a e ha hl]

/-- Witness of C4: on a cancelled context the auto-exporter's error comes back
and the log exporter is not constructed. -/
theorem C4_returned_error_witness :
    (InitOpenTelemetry sampleEnv SampleCtx.cancelled emptyWorld).1 = some "context canceled" ∧
    ∀ c ∈ (InitOpenTelemetry sampleEnv SampleCtx.cancelled emptyWorld).2.calls.drop
        emptyWorld.calls.length,
      c.isStdouttraceNew = false :=
  (C4_returned_error sampleEnv SampleCtx.cancelled emptyWorld).2.1 "context canceled" rfl

/-- C5: when both exporter constructors succeed, one call of
`InitOpenTelemetry` returns nil, makes exactly one call that writes the
tracer-provider slot and exactly one that writes the propagator slot, after
which the provider slot holds the provider written and the propagator slot holds
the composite of the trace-context format followed by the baggage format. -/
theorem C5_success_installs_once {Ctx Err σ E : Type} (env : Env Ctx Err σ E) (ctx : Ctx)
    (w : World Ctx σ E) (a l : E) (ha : env.NewSpanExporter ctx = Except.ok a)
    (hl : env.stdouttraceNew [stdouttrace.Option.WithWriter ⟨env.GetLogger ctx⟩]
      = Except.ok l) :
    (InitOpenTelemetry env ctx w).1 = none ∧
    ∃ tp pr,
      (InitOpenTelemetry env ctx w).2.calls = w.calls ++
        [Call.Version, Call.NewSpanExporter ctx, Call.GetLogger ctx,
         Call.stdouttraceNew [stdouttrace.Option.WithWriter ⟨env.GetLogger ctx⟩],
         Call.SetTracerProvider tp, Call.SetTextMapPropagator pr] ∧
      ((InitOpenTelemetry env ctx w).2.calls.drop w.calls.length).countP
        Call.isSetTracerProvider = 1 ∧
      ((InitOpenTelemetry env ctx w).2.calls.drop w.calls.length).countP
        Call.isSetTextMapPropagator = 1 ∧
      (InitOpenTelemetry env ctx w).2.globals.tracerProvider = some tp ∧
      (InitOpenTelemetry env ctx w).2.globals.textMapPropagator = some pr ∧
      pr.propagators = [TextMapFormat.TraceContext, TextMapFormat.Baggage] := by
  rw [InitOpenTelemetry_ok env ctx w a l ha hl]
  refine ⟨rfl, _, _, rfl, ?_, ?_, rfl, rfl, rfl⟩ <;>
    simp [Call.isSetTracerProvider, Call.isSetTextMapPropagator, List.countP_cons]

/-- Witness of C5: both constructors succeed on the live context, sentinels sit
in both slots before the call. -/
theorem C5_success_installs_once_witness :
    (InitOpenTelemetry sampleEnv SampleCtx.background sentinelWorld).1 = none ∧
    ∃ tp pr,
      (InitOpenTelemetry sampleEnv SampleCtx.background sentinelWorld).2.calls =
        sentinelWorld.calls ++
        [Call.Version, Call.NewSpanExporter SampleCtx.background,
         Call.GetLogger SampleCtx.background,
         Call.stdouttraceNew
           [stdouttrace.Option.WithWriter ⟨sampleEnv.GetLogger SampleCtx.background⟩],
         Call.SetTracerProvider tp, Call.SetTextMapPropagator pr] ∧
      ((InitOpenTelemetry sampleEnv SampleCtx.background sentinelWorld).2.calls.drop
        sentinelWorld.calls.length).countP Call.isSetTracerProvider = 1 ∧
      ((InitOpenTelemetry sampleEnv SampleCtx.background sentinelWorld).2.calls.drop
        sentinelWorld.calls.length).countP Call.isSetTextMapPropagator = 1 ∧
      (InitOpenTelemetry sampleEnv SampleCtx.background sentinelWorld).2.globals.tracerProvider
        = some tp ∧
      (InitOpenTelemetry sampleEnv SampleCtx.background sentinelWorld).2.globals.textMapPropagator
        = some pr ∧
      pr.propagators = [TextMapFormat.TraceContext, TextMapFormat.Baggage] :=
  C5_success_installs_once sampleEnv SampleCtx.background sentinelWorld 1 2 rfl rfl

/-- C6, as stated, fails: the live and the cancelled context yield the same
logger, yet `InitOpenTelemetry` returns nil and installs a provider on the
first, and returns an error and installs nothing on the second, because the
context is handed to `autoexport.NewSpanExporter` (line 51). -/
theorem C6_context_reaches_auto_exporter :
    sampleEnv.GetLogger SampleCtx.background = sampleEnv.GetLogger SampleCtx.cancelled ∧
    (InitOpenTelemetry sampleEnv SampleCtx.background emptyWorld).1 = none ∧
    (InitOpenTelemetry sampleEnv SampleCtx.cancelled emptyWorld).1 = some "context canceled" ∧
    (InitOpenTelemetry sampleEnv SampleCtx.background emptyWorld).2.globals.tracerProvider.isSome
      = true ∧
    (InitOpenTelemetry sampleEnv SampleCtx.cancelled emptyWorld).2.globals.tracerProvider.isSome
      = false ∧
    Call.NewSpanExporter SampleCtx.cancelled ∈
      (InitOpenTelemetry sampleEnv SampleCtx.cancelled emptyWorld).2.calls :=
  ⟨rfl, rfl, rfl, rfl, rfl, by
    rw [InitOpenTelemetry_auto_error sampleEnv SampleCtx.cancelled emptyWorld
      "context canceled" rfl]
    simp⟩

/-- C6, amended: the context is handed to two collaborators and no other, the
auto-exporter's constructor and the logger lookup; for any two contexts on
which the auto-exporter's constructor answers the same and that yield the same
logger, `InitOpenTelemetry` returns the same error and leaves the same global
slots. -/
theorem C6_context_use {Ctx Err σ E : Type} (env : Env Ctx Err σ E) (ctx1 ctx2 : Ctx)
    (w : World Ctx σ E) (hx : env.NewSpanExporter ctx1 = env.NewSpanExporter ctx2)
    (hg : env.GetLogger ctx1 = env.GetLogger ctx2) :
    (InitOpenTelemetry env ctx1 w).1 = (InitOpenTelemetry env ctx2 w).1 ∧
    (InitOpenTelemetry env ctx1 w).2.globals = (InitOpenTelemetry env ctx2 w).2.globals ∧
    ∀ c ∈ (InitOpenTelemetry env ctx1 w).2.calls.drop w.calls.length,
      c.contexts ≠ [] → c = Call.NewSpanExporter ctx1 ∨ c = Call.GetLogger ctx1 := by
  cases ha : env.NewSpanExporter ctx1 with
  | error e =>
    rw [InitOpenTelemetry_auto_error env ctx1 w e ha,
      InitOpenTelemetry_auto_error env ctx2 w e (hx ▸ ha)]
    simp [Call.contexts]
  | ok a =>
    cases hl : env.stdouttraceNew [stdouttrace.Option.WithWriter ⟨env.GetLogger ctx1⟩] with
    | error e =>
      rw [InitOpenTelemetry_log_error env ctx1 w a e ha hl,
        InitOpenTelemetry_log_error env ctx2 w a e (hx ▸ ha) (hg ▸ hl)]
      simp [Call.contexts]
    | ok l =>
      rw [InitOpenTelemetry_ok env ctx1 w a l ha hl,
        InitOpenTelemetry_ok env ctx2 w a l (hx ▸ ha) (hg ▸ hl)]
      simp [Call.contexts]

/-- Witness of amended C6: under collaborators that accept every context, the
live and the cancelled context give the same outcome. -/
theorem C6_context_use_witness :
    (InitOpenTelemetry sampleEnvLogFails SampleCtx.background sentinelWorld).1 =
      (InitOpenTelemetry sampleEnvLogFails SampleCtx.cancelled sentinelWorld).1 ∧
    (InitOpenTelemetry sampleEnvLogFails SampleCtx.background sentinelWorld).2.globals =
      (InitOpenTelemetry sampleEnvLogFails SampleCtx.cancelled sentinelWorld).2.globals ∧
    ∀ c ∈ (InitOpenTelemetry sampleEnvLogFails SampleCtx.background sentinelWorld).2.calls.drop
        sentinelWorld.calls.length,
      c.contexts ≠ [] →
        c = Call.NewSpanExporter SampleCtx.background ∨ c = Call.GetLogger SampleCtx.background :=
  C6_context_use sampleEnvLogFails SampleCtx.background SampleCtx.cancelled sentinelWorld rfl rfl

/-- C7: whatever the context and the collaborators, the provider that a
successful `InitOpenTelemetry` installs was given one sampler, the trace-ID-ratio
sampler of ratio exactly 1, and that sampler decides "record and sample" for
every trace ID. -/
theorem C7_sampler_ratio_one {Ctx Err σ E : Type} (env : Env Ctx Err σ E) (ctx : Ctx)
    (w : World Ctx σ E) (h : (InitOpenTelemetry env ctx w).1 = none) :
    ∃ tp, (InitOpenTelemetry env ctx w).2.globals.tracerProvider = some tp ∧
      tp.samplers = [Sampler.TraceIDRatioBased 1] ∧
      ∀ s ∈ tp.samplers, ∀ traceID : Nat,
        s.ShouldSample traceID = SamplingDecision.RecordAndSample := by
  obtain ⟨a, l, ha, hl⟩ := InitOpenTelemetry_nil_inv env ctx w h
  rw [InitOpenTelemetry_ok env ctx w a l ha hl]
  refine ⟨_, rfl, rfl, ?_⟩
  intro s hs traceID
  have hs1 : s = Sampler.TraceIDRatioBased 1 := by
    simpa [builtProvider, sdktrace.NewTracerProvider, TracerProvider.samplers,
      defaultSamplingRatio] using hs
  subst hs1
  simp [Sampler.ShouldSample]

/-- Witness of C7: the live context under the sample collaborators. -/
theorem C7_sampler_ratio_one_witness :
    ∃ tp, (InitOpenTelemetry sampleEnv SampleCtx.background emptyWorld).2.globals.tracerProvider
        = some tp ∧
      tp.samplers = [Sampler.TraceIDRatioBased 1] ∧
      ∀ s ∈ tp.samplers, ∀ traceID : Nat,
        s.ShouldSample traceID = SamplingDecision.RecordAndSample :=
  C7_sampler_ratio_one sampleEnv SampleCtx.background emptyWorld rfl

/-- C8, as stated, fails: when the process environment declares the attribute
`deployment.environment=prod`, the resource of the provider that a successful
`InitOpenTelemetry` installs carries three attributes, that one besides
`service.name` and `service.version`, and so not exactly these two. -/
theorem C8_environment_adds_attribute :
    (InitOpenTelemetry sampleEnvWithAttribute SampleCtx.background emptyWorld).1 = none ∧
    ∃ tp r,
      (InitOpenTelemetry sampleEnvWithAttribute SampleCtx.background
        emptyWorld).2.globals.tracerProvider = some tp ∧
      tp.resource sampleEnvWithAttribute.Environment = some r ∧
      r.attrs =
        [⟨GoString.lit "deployment.environment", GoString.lit "prod"⟩,
         ⟨GoString.lit "service.name", GoString.lit "distribution"⟩,
         ⟨GoString.lit "service.version", GoString.lit "v3.0.0"⟩] ∧
      r.attrs ≠
        [⟨GoString.lit "service.name", GoString.lit "distribution"⟩,
         ⟨GoString.lit "service.version", GoString.lit "v3.0.0"⟩] :=
  ⟨rfl, _, _, rfl, rfl, by decide, by decide⟩

/-- C8, amended: for every context, the one resource descriptor that a
successful `InitOpenTelemetry` gives to the provider has schema URL
`semconv.SchemaURL` and exactly the attributes `service.name = "distribution"`
and `service.version =` the string `version.Version()` returned.  The resource
of the installed provider is that descriptor merged over the environment's
resource: it carries these two attributes, and besides them exactly the
attributes of the environment's resource under other keys; it carries exactly
these two when the environment declares none, and its schema URL is
`semconv.SchemaURL` when the environment's is empty or the same. -/
theorem C8_resource_attributes {Ctx Err σ E : Type} (env : Env Ctx Err σ E) (ctx : Ctx)
    (w : World Ctx σ E) (h : (InitOpenTelemetry env ctx w).1 = none) :
    ∃ tp r, (InitOpenTelemetry env ctx w).2.globals.tracerProvider = some tp ∧
      tp.resourceOptions =
        [{ schemaURL := semconv.SchemaURL
           attrs := [⟨GoString.lit "service.name", GoString.lit "distribution"⟩,
                     ⟨GoString.lit "service.version", env.Version⟩] }] ∧
      tp.resource env.Environment = some r ∧
      (∀ kv, kv ∈ r.attrs ↔
        kv = ⟨GoString.lit "service.name", GoString.lit "distribution"⟩ ∨
        kv = ⟨GoString.lit "service.version", env.Version⟩ ∨
        (kv ∈ env.Environment.attrs ∧ kv.key ≠ GoString.lit "service.name" ∧
          kv.key ≠ GoString.lit "service.version")) ∧
      (env.Environment.attrs = [] →
        r.attrs = [⟨GoString.lit "service.name", GoString.lit "distribution"⟩,
                   ⟨GoString.lit "service.version", env.Version⟩]) ∧
      (env.Environment.schemaURL = ⟨[]⟩ ∨ env.Environment.schemaURL = semconv.SchemaURL →
        r.schemaURL = semconv.SchemaURL) := by
  obtain ⟨a, l, ha, hl⟩ := InitOpenTelemetry_nil_inv env ctx w h
  rw [InitOpenTelemetry_ok env ctx w a l ha hl]
  refine ⟨_, _, rfl, rfl, rfl, ?_, ?_, ?_⟩
  · intro kv
    simp only [resource.Merge, resource.NewWithAttributes, Key.String, Resource.hasKey,
      semconv.ServiceNameKey, semconv.ServiceVersionKey, serviceName, List.mem_append,
      List.mem_filter, List.any_cons, List.any_nil, List.mem_cons, List.mem_nil_iff,
      Bool.or_false, Bool.not_eq_true', Bool.or_eq_false_iff, decide_eq_false_iff_not,
      Bool.not_or, Bool.and_eq_true, Bool.not_eq_true, ne_eq, or_false]
    constructor
    · rintro (⟨hm, hk⟩ | hm | hm)
      · exact Or.inr (Or.inr ⟨hm, fun hx => hk.1 hx.symm, fun hx => hk.2 hx.symm⟩)
      · exact Or.inl hm
      · exact Or.inr (Or.inl hm)
    · rintro (hm | hm | ⟨hm, h1, h2⟩)
      · exact Or.inr (Or.inl hm)
      · exact Or.inr (Or.inr hm)
      · exact Or.inl ⟨hm, fun hx => h1 hx.symm, fun hx => h2 hx.symm⟩
  · intro he
    simp [resource.Merge, resource.NewWithAttributes, Key.String, he,
      semconv.ServiceNameKey, semconv.ServiceVersionKey, serviceName]
  · intro hs
    simp only [resource.Merge, resource.NewWithAttributes]
    rcases hs with hs | hs
    · rw [if_pos hs]
    · split_ifs <;> simp_all

/-- Witness of amended C8: the live context under collaborators whose
environment declares one attribute. -/
theorem C8_resource_attributes_witness :
    ∃ tp r,
      (InitOpenTelemetry sampleEnvWithAttribute SampleCtx.background
        emptyWorld).2.globals.tracerProvider = some tp ∧
      tp.resourceOptions =
        [{ schemaURL := semconv.SchemaURL
           attrs := [⟨GoString.lit "service.name", GoString.lit "distribution"⟩,
                     ⟨GoString.lit "service.version", sampleEnvWithAttribute.Version⟩] }] ∧
      tp.resource sampleEnvWithAttribute.Environment = some r ∧
      (∀ kv, kv ∈ r.attrs ↔
        kv = ⟨GoString.lit "service.name", GoString.lit "distribution"⟩ ∨
        kv = ⟨GoString.lit "service.version", sampleEnvWithAttribute.Version⟩ ∨
        (kv ∈ sampleEnvWithAttribute.Environment.attrs ∧
          kv.key ≠ GoString.lit "service.name" ∧
          kv.key ≠ GoString.lit "service.version")) ∧
      (sampleEnvWithAttribute.Environment.attrs = [] →
        r.attrs = [⟨GoString.lit "service.name", GoString.lit "distribution"⟩,
                   ⟨GoString.lit "service.version", sampleEnvWithAttribute.Version⟩]) ∧
      (sampleEnvWithAttribute.Environment.schemaURL = ⟨[]⟩ ∨
          sampleEnvWithAttribute.Environment.schemaURL = semconv.SchemaURL →
        r.schemaURL = semconv.SchemaURL) :=
  C8_resource_attributes sampleEnvWithAttribute SampleCtx.background emptyWorld rfl

/-- C10: the provider that a successful `InitOpenTelemetry` installs was given
exactly one span processor, the batch processor over the composite of exactly
two exporters: first the one `autoexport.NewSpanExporter` returned, then the one
`stdouttrace.New` returned for the single option `WithWriter(lw)`, where `lw`
holds the logger looked up from the context, so that every write to `lw` is one
Debug call on that logger. -/
theorem C10_pipeline_wiring {Ctx Err σ E : Type} (env : Env Ctx Err σ E) (ctx : Ctx)
    (w : World Ctx σ E) (h : (InitOpenTelemetry env ctx w).1 = none) :
    ∃ tp autoExp loggerExp lw,
      (InitOpenTelemetry env ctx w).2.globals.tracerProvider = some tp ∧
      env.NewSpanExporter ctx = Except.ok autoExp ∧
      env.stdouttraceNew [stdouttrace.Option.WithWriter lw] = Except.ok loggerExp ∧
      Call.stdouttraceNew [stdouttrace.Option.WithWriter lw] ∈
        (InitOpenTelemetry env ctx w).2.calls.drop w.calls.length ∧
      lw.logger = env.GetLogger ctx ∧
      tp.spanProcessors = [{ exporter := { exporters := [autoExp, loggerExp] } }] ∧
      ∀ (p : List Byte) (s : σ),
        lw.Write Err p s = ((p.length, none), (env.GetLogger ctx).Debug (string p) s) := by
  obtain ⟨a, l, ha, hl⟩ := InitOpenTelemetry_nil_inv env ctx w h
  rw [InitOpenTelemetry_ok env ctx w a l ha hl]
  exact ⟨_, a, l, ⟨env.GetLogger ctx⟩, rfl, ha, hl, by simp, rfl, rfl, fun _ _ => rfl⟩

/-- Witness of C10: the live context under the sample collaborators. -/
theorem C10_pipeline_wiring_witness :
    ∃ tp autoExp loggerExp lw,
      (InitOpenTelemetry sampleEnv SampleCtx.background emptyWorld).2.globals.tracerProvider
        = some tp ∧
      sampleEnv.NewSpanExporter SampleCtx.background = Except.ok autoExp ∧
      sampleEnv.stdouttraceNew [stdouttrace.Option.WithWriter lw] = Except.ok loggerExp ∧
      Call.stdouttraceNew [stdouttrace.Option.WithWriter lw] ∈
        (InitOpenTelemetry sampleEnv SampleCtx.background emptyWorld).2.calls.drop
          emptyWorld.calls.length ∧
      lw.logger = sampleEnv.GetLogger SampleCtx.background ∧
      tp.spanProcessors = [{ exporter := { exporters := [autoExp, loggerExp] } }] ∧
      ∀ (p : List Byte) (s : List Entry),
        lw.Write String p s =
          ((p.length, none), (sampleEnv.GetLogger SampleCtx.background).Debug (string p) s) :=
  C10_pipeline_wiring sampleEnv SampleCtx.background emptyWorld rfl

/-- C9: for every ordered list of span exporters held by the composite (the
non-empty ones among them), whatever each exporter does and answers, and every
batch, the composite's export invokes every held exporter exactly once, in list
order, each with the batch it was given, also after a failure; it returns a
non-nil error if and only if at least one of these sub-exports failed; and
observing the sub-exports changes neither the returned error nor the state. -/
theorem C9_composite_export_fans_out {E B ρ Err : Type} (call : E → B → ρ → Option Err × ρ)
    (combine : Err → List Err → Err) (exporters : List E) (batch : B) (s : ρ)
    (log : List (ExportRecord E B Err)) :
    ∃ recs,
      ((newCompositeExporter exporters).ExportSpans (recorded call) combine batch (s, log)).2.2
        = log ++ recs ∧
      recs.map (fun r => (r.exporter, r.batch)) = exporters.map (fun e => (e, batch)) ∧
      (((newCompositeExporter exporters).ExportSpans (recorded call) combine batch (s, log)).1
          ≠ none ↔ ∃ r ∈ recs, r.result ≠ none) ∧
      ((newCompositeExporter exporters).ExportSpans (recorded call) combine batch (s, log)).1
        = ((newCompositeExporter exporters).ExportSpans call combine batch s).1 ∧
      ((newCompositeExporter exporters).ExportSpans (recorded call) combine batch (s, log)).2.1
        = ((newCompositeExporter exporters).ExportSpans call combine batch s).2 := by
  obtain ⟨recs, h1, h2, h3, h4, h5⟩ := exportEach_recorded call batch exporters s log
  have h3b : (∃ r ∈ recs, r.result ≠ none) ↔ ∃ r ∈ recs, r.result.isSome = true := by
    constructor <;> rintro ⟨r, hr, hx⟩ <;> refine ⟨r, hr, ?_⟩
    · exact Option.isSome_iff_ne_none.mpr hx
    · exact Option.isSome_iff_ne_none.mp hx
  refine ⟨recs, ?_, h2, ?_, ?_, ?_⟩
  · rw [ExportSpans_state, newCompositeExporter, h1]
  · rw [h3b, ← h3, ExportSpans_error, newCompositeExporter]
    cases (compositeExporter.exportEach (recorded call) batch exporters (s, log)).1 <;> simp
  · rw [ExportSpans_error, ExportSpans_error, newCompositeExporter, h4]
  · rw [ExportSpans_state, ExportSpans_state, newCompositeExporter, h5]

end Tracing
